import Mathlib

/-
Verification development for the Travel-Guide repository.
Shallow embedding of the pocketflow nodes (nodes.py), the event emitter
(app/core/events.py), the flow runner (backend/app/services/travel_flow.py),
the session manager (app/core/sessions.py) and the web-search utility
(utils.py), together with proofs of the behavioural claims about them.
-/

namespace TravelGuide

/-- Python values stored in the shared-store dictionaries (a closed subset
sufficient for the keys the nodes read and write; the only list-valued key in
the extracted schema, interests, holds strings, so list elements are strings). -/
inductive Val where
  | vnull : Val
  | vstr : String → Val
  | vint : Int → Val
  | vbool : Bool → Val
  | vlist : List String → Val
deriving DecidableEq, Repr

/-- Python truthiness of a value: None, "", 0, False and [] are falsy. -/
def truthy : Val → Bool
  | Val.vnull => false
  | Val.vstr s => s ≠ ""
  | Val.vint n => n ≠ 0
  | Val.vbool b => b
  | Val.vlist l => ¬ l.isEmpty

/-- Dictionary lookup (d.get(k)); Python dicts keep at most one entry per key. -/
def lookupKV {α : Type} (d : List (String × α)) (k : String) : Option α :=
  match d with
  | [] => none
  | (k1, v) :: rest => if k1 = k then some v else lookupKV rest k

/-- Dictionary assignment d[k] = v: overwrite in place, append when absent. -/
def dictInsert {α : Type} (d : List (String × α)) (k : String) (v : α) :
    List (String × α) :=
  match d with
  | [] => [(k, v)]
  | (k1, v1) :: rest =>
      if k1 = k then (k1, v) :: rest else (k1, v1) :: dictInsert rest k v

/-- The shared store (a Python dict); a field is none when the key is absent.
Keys the claims never touch (destination_info, accommodations, transportation,
activities, restaurants, daily_plans, narrative_story, plan_revision_count,
and the emitter reference, which no node in nodes.py reads) are omitted. -/
structure Shared where
  user_request : Option String := none
  conversation_history : List String := []
  trip_info : List (String × Val) := []
  needs_clarification : Option Bool := none
  dynamic_questions : Option (List String) := none
  analysis_reasoning : Option String := none
  clarification_questions : Option (List String) := none
  clarification_round : Option Nat := none
  max_clarification_rounds : Option Nat := none
  flow_status : Option String := none
  final_travel_guide : Option String := none
  plan_emitted : Option Bool := none
  pending_input : Option String := none
  api_mode : Option Bool := none
deriving DecidableEq, Repr

/-! ### nodes.py: GetUserRequest -/

/-- GetUserRequest.exec: unconditionally reads one line from the console
(console input modelled as a list of pending lines; returns the line read and
the remaining console).  It consults nothing in the shared store. -/
def GetUserRequest_exec (console : List String) : String × List String :=
  (console.headD "", console.tail)

/-- GetUserRequest.post: stores the console line as user_request and appends
an "Initial request" entry to the conversation history; returns "default". -/
def GetUserRequest_post (shared : Shared) (exec_res : String) : Shared × String :=
  ({ shared with
      user_request := some exec_res,
      conversation_history :=
        shared.conversation_history ++ ["Initial request: " ++ exec_res] },
   "default")

/-- One full run of the GetUserRequest node (prep is trivial in the source):
returns the updated store, the action label, and the remaining console input. -/
def GetUserRequest_run (shared : Shared) (console : List String) :
    Shared × String × List String :=
  let r := GetUserRequest_exec console
  let p := GetUserRequest_post shared r.1
  (p.1, p.2, r.2)

/-! ### nodes.py: AnalyzeRequest -/

/-- The dict parsed from the LLM's YAML answer in AnalyzeRequest.exec;
a field is none when the key is absent from the parsed mapping. -/
structure AnalysisResult where
  extracted_info : List (String × Val) := []
  needs_clarification : Option Bool := none
  questions : Option (List String) := none
  reasoning : Option String := none
deriving DecidableEq, Repr

/-- The trip_info update loop of AnalyzeRequest.post: each extracted entry is
assigned only when its value is not None, not [] and not "". -/
def updateTripInfo (trip_info : List (String × Val)) :
    List (String × Val) → List (String × Val)
  | [] => trip_info
  | (k, v) :: rest =>
      if v ≠ Val.vnull ∧ v ≠ Val.vlist [] ∧ v ≠ Val.vstr "" then
        updateTripInfo (dictInsert trip_info k v) rest
      else
        updateTripInfo trip_info rest

/-- AnalyzeRequest.post: merges extracted_info into trip_info (skipping
None/[]/"" values), then stores needs_clarification, dynamic_questions and
analysis_reasoning with their Python .get defaults; returns "default". -/
def AnalyzeRequest_post (shared : Shared) (exec_res : AnalysisResult) :
    Shared × String :=
  ({ shared with
      trip_info := updateTripInfo shared.trip_info exec_res.extracted_info,
      needs_clarification := some (exec_res.needs_clarification.getD false),
      dynamic_questions := some (exec_res.questions.getD []),
      analysis_reasoning := some (exec_res.reasoning.getD "") },
   "default")

/-! ### nodes.py: DecideNeedInfo -/

/-- The data DecideNeedInfo.prep collects from the shared store. -/
structure DecidePrepped where
  needs_clarification : Bool
  clarification_round : Nat
  max_rounds : Nat
  has_destination : Bool
deriving DecidableEq, Repr

/-- DecideNeedInfo.prep with the source's .get defaults; has_destination is
the Python truthiness of trip_info.get("destination"). -/
def DecideNeedInfo_prep (shared : Shared) : DecidePrepped :=
  { needs_clarification := shared.needs_clarification.getD false
    clarification_round := shared.clarification_round.getD 0
    max_rounds := shared.max_clarification_rounds.getD 5
    has_destination :=
      truthy ((lookupKV shared.trip_info "destination").getD Val.vnull) }

/-- DecideNeedInfo.exec: destination check first, then the round bound, then
the LLM's needs_clarification judgment. -/
def DecideNeedInfo_exec (d : DecidePrepped) : String :=
  if ¬ d.has_destination then "clarify"
  else if d.clarification_round ≥ d.max_rounds then "proceed"
  else if d.needs_clarification then "clarify"
  else "proceed"

/-- DecideNeedInfo.post: prints and returns the action, store untouched. -/
def DecideNeedInfo_post (shared : Shared) (exec_res : String) : Shared × String :=
  (shared, exec_res)

/-- One full run of the DecideNeedInfo node. -/
def DecideNeedInfo_run (shared : Shared) : Shared × String :=
  DecideNeedInfo_post shared (DecideNeedInfo_exec (DecideNeedInfo_prep shared))

/-! ### nodes.py: AskClarification and GetUserClarification -/

/-- AskClarification.exec: falls back to a default question on an empty list. -/
def AskClarification_exec (questions : List String) : List String :=
  if questions.isEmpty then ["What destination are you considering?"] else questions

/-- AskClarification.post: records the questions and increments
clarification_round; returns "default". -/
def AskClarification_post (shared : Shared) (exec_res : List String) :
    Shared × String :=
  ({ shared with
      clarification_questions := some exec_res,
      clarification_round := some (shared.clarification_round.getD 0 + 1) },
   "default")

/-- One full run of AskClarification (prep reads dynamic_questions). -/
def AskClarification_run (shared : Shared) : Shared × String :=
  AskClarification_post shared (AskClarification_exec (shared.dynamic_questions.getD []))

/-- GetUserClarification.post: appends the asked questions and the console
answer to the conversation history; returns "analyze". -/
def GetUserClarification_post (shared : Shared) (prep_res : List String)
    (exec_res : String) : Shared × String :=
  ({ shared with
      conversation_history :=
        shared.conversation_history ++
          ["Questions asked: " ++ String.intercalate " | " prep_res,
           "User answered: " ++ exec_res] },
   "analyze")

/-- One full run of GetUserClarification; the answer comes from the console. -/
def GetUserClarification_run (shared : Shared) (console : List String) :
    Shared × String × List String :=
  let q := shared.clarification_questions.getD []
  let ans := console.headD ""
  let p := GetUserClarification_post shared q ans
  (p.1, p.2, console.tail)

/-! ### app/core/events.py: StreamEvent and EventEmitter -/

/-- The closed enumeration of stream event kinds (class EventType). -/
inductive EventType where
  | thinking
  | question
  | searching
  | progress
  | plan
  | error
  | complete
deriving DecidableEq, Repr

/-- A streaming event (dataclass StreamEvent); the timestamp is supplied by
the clock at construction time. -/
structure StreamEvent where
  type : EventType
  content : String
  metadata : List (String × Val)
  timestamp : String
deriving DecidableEq, Repr

/-- The emitter's observable state: the sync queue contents (FIFO, front
first) and the closed flag.  The never-consumed asyncio queue of the source
is omitted: get_events yields straight from the sync queue. -/
structure EmitterState where
  queue : List StreamEvent
  closed : Bool
deriving DecidableEq, Repr

/-- A freshly constructed EventEmitter. -/
def emitterInit : EmitterState := { queue := [], closed := false }

/-- EventEmitter.emit: a no-op once closed, otherwise enqueues a StreamEvent
built from the kind, content, metadata (defaulting to the empty dict) and the
current clock reading. -/
def emitEvent (s : EmitterState) (event_type : EventType) (content : String)
    (metadata : Option (List (String × Val))) (now : String) : EmitterState :=
  if s.closed then s
  else
    { s with
        queue := s.queue ++
          [{ type := event_type, content := content,
             metadata := metadata.getD [], timestamp := now }] }

/-- EventEmitter.error: emits an Error event carrying error_type metadata;
it does not touch the closed flag. -/
def errorEmit (s : EmitterState) (content : String) (error_type : Option String)
    (now : String) : EmitterState :=
  emitEvent s EventType.error content
    (some [("error_type", (error_type.map Val.vstr).getD Val.vnull)]) now

/-- EventEmitter.complete: emits a Complete event, then sets the closed flag. -/
def completeEmit (s : EmitterState) (content : String) (now : String) :
    EmitterState :=
  let s1 := emitEvent s EventType.complete content none now
  { s1 with closed := true }

/-- Sequential semantics of the get_events async generator: when the emitter
is closed the generator drains the queue in FIFO order and terminates,
leaving the queue empty; when it is open the generator keeps polling and its
sequence never terminates (no finished read exists), modelled as none. -/
def get_events (s : EmitterState) : Option (List StreamEvent × EmitterState) :=
  if s.closed then some (s.queue, { s with queue := [] }) else none

/-- A sequence of plain emit calls (kind, content, timestamp triples). -/
def emitMany (s : EmitterState) (evs : List (EventType × String × String)) :
    EmitterState :=
  evs.foldl (fun acc e => emitEvent acc e.1 e.2.1 none e.2.2) s

/-! ### utils.py: search_web -/

/-- One element of the Serper response's "organic" list; every field that the
code reads is read with .get and a "" default, so each is optional. -/
structure RawResult where
  title : Option String := none
  link : Option String := none
  snippet : Option String := none
deriving DecidableEq, Repr

/-- The decoded JSON body of a successful Serper response; the "organic" key
may be absent (results.get("organic", [])). -/
structure SerperResponse where
  organic : Option (List RawResult) := none
deriving DecidableEq, Repr

/-- A {title, url, snippet} record returned by search_web. -/
structure SearchResult where
  title : String
  url : String
  snippet : String
deriving DecidableEq, Repr

/-- What the HTTP request/response handling can raise: raise_for_status
raises HTTPError on an error status; anything else (network failure, bad
JSON, ...) is some other exception.  Both are caught. -/
inductive SearchFailure where
  | httpError (status : Nat) (body : String)
  | otherError (msg : String)
deriving DecidableEq, Repr

/-- search_web given the backend outcome for the query: on any failure it
returns the empty list; on success it maps the organic results, in order, to
{title, url, snippet} records with "" defaults. -/
def search_web (outcome : Except SearchFailure SerperResponse) :
    List SearchResult :=
  match outcome with
  | Except.error _ => []
  | Except.ok results =>
      (results.organic.getD []).map (fun r =>
        { title := r.title.getD "", url := r.link.getD "",
          snippet := r.snippet.getD "" })

/-! ### nodes.py: PlanDailyItinerary.post parse-and-repair logic -/

/-- The exceptions yaml.safe_load can raise: the except clause catches only
yaml.scanner.ScannerError; every other parse exception is unhandled. -/
inductive YamlErr where
  | scanner (msg : String)
  | other (msg : String)
deriving DecidableEq, Repr

/-- The repair prompt built in PlanDailyItinerary.post's except clause, with
the ScannerError message and the offending YAML text embedded. -/
def repairPrompt (errMsg yaml_str : String) : String :=
  "While parsing the below yaml I am getting error as " ++ errMsg ++ ".\n" ++
    yaml_str ++
    "\n\nCan you fix the parsing issue correcting the yaml. Return only the yaml and nothing else.\n            "

/-- The parse-and-repair step of PlanDailyItinerary.post: try to parse; on a
ScannerError, issue exactly one further completion with the error message
embedded and parse its answer (whose failure, of either kind, propagates);
on any other parse exception, propagate immediately.  The second component
counts the repair completions issued. -/
def planItineraryParse (parse : String → Except YamlErr Val)
    (llm : String → String) (yaml_str : String) : Except YamlErr Val × Nat :=
  match parse yaml_str with
  | Except.ok v => (Except.ok v, 0)
  | Except.error (YamlErr.scanner msg) =>
      (parse (llm (repairPrompt msg yaml_str)), 1)
  | Except.error (YamlErr.other msg) => (Except.error (YamlErr.other msg), 0)

/-! ### app/core/sessions.py: Session and SessionManager -/

/-- A chat message appended by Session.add_message (role, content, timestamp). -/
structure Message where
  role : String
  content : String
  timestamp : String
deriving DecidableEq, Repr

/-- A Session dataclass instance. -/
structure SessionM where
  id : String
  created_at : String
  updated_at : String
  messages : List Message := []
  shared : Shared := {}
  status : String := "idle"
  emitter : EmitterState := emitterInit
deriving DecidableEq, Repr

/-- Session.init_shared_store: the initial shared store of a new session
(restricted to the modelled keys; destination_info, accommodations,
transportation, activities, restaurants, daily_plans, narrative_story,
plan_revision_count and the emitter reference are omitted from Shared). -/
def init_shared_store : Shared :=
  { conversation_history := []
    trip_info := []
    clarification_round := some 0
    max_clarification_rounds := some 5
    final_travel_guide := some ""
    user_request := none
    needs_clarification := none
    dynamic_questions := none
    analysis_reasoning := none
    clarification_questions := none
    flow_status := none
    plan_emitted := none
    pending_input := none
    api_mode := none }

/-- The SessionManager's session map. -/
structure SessionManagerM where
  sessions : List (String × SessionM)
deriving DecidableEq, Repr

/-- SessionManager.create_session: builds a session with a freshly generated
uuid4 id (supplied by the id generator), initializes its shared store, and
registers it under that fresh id. -/
def create_session (m : SessionManagerM) (fresh now : String) :
    SessionM × SessionManagerM :=
  let session : SessionM :=
    { id := fresh, created_at := now, updated_at := now, messages := [],
      shared := init_shared_store, status := "idle", emitter := emitterInit }
  (session, { sessions := dictInsert m.sessions fresh session })

/-- SessionManager.get_session. -/
def get_session (m : SessionManagerM) (session_id : String) : Option SessionM :=
  lookupKV m.sessions session_id

/-- SessionManager.get_or_create_session: returns the existing session when
the supplied id is truthy (non-empty) and present; in every other case it
calls create_session, which generates a fresh id. -/
def get_or_create_session (m : SessionManagerM) (session_id : Option String)
    (fresh now : String) : SessionM × SessionManagerM :=
  match session_id with
  | some sid =>
      if sid ≠ "" then
        match lookupKV m.sessions sid with
        | some s => (s, m)
        | none => create_session m fresh now
      else create_session m fresh now
  | none => create_session m fresh now

/-- SessionManager.delete_session: removes the entry when present and reports
whether a deletion happened. -/
def delete_session (m : SessionManagerM) (session_id : String) :
    SessionManagerM × Bool :=
  if (lookupKV m.sessions session_id).isSome then
    ({ sessions := m.sessions.filter (fun p => p.1 ≠ session_id) }, true)
  else (m, false)

/-! ### backend/app/services/travel_flow.py: FlowRunner -/

/-- The effect of flow.run(shared) (create_travel_guide_flow + pocketflow's
engine): the flow mutates the store in place and may let an exception escape;
the result is the store as mutated so far plus the optional exception
message.  FlowRunner is parametric in this effect. -/
def FlowExec : Type := Shared → Shared × Option String

/-- FlowRunner.run: sets api_mode and flow_status, emits a Thinking event,
runs the flow, then either records the waiting_input status, or finalizes
(flow_status complete, Plan event once, Complete event); if an exception
escapes the flow, it emits an Error event, sets the session status and
flow_status to "error", and re-raises (the second component is the
propagated exception). -/
def FlowRunner_run (s : SessionM) (flowExec : FlowExec) (now : String) :
    SessionM × Option String :=
  let sh0 := { s.shared with api_mode := some true, flow_status := some "processing" }
  let em0 := emitEvent s.emitter EventType.thinking "Starting to plan your trip..." none now
  match flowExec sh0 with
  | (sh1, some e) =>
      ({ s with shared := { sh1 with flow_status := some "error" },
                emitter := errorEmit em0 ("Error: " ++ e) none now,
                status := "error" },
       some e)
  | (sh1, none) =>
      if sh1.flow_status = some "waiting_input" then
        ({ s with shared := sh1, emitter := em0, status := "waiting_input" }, none)
      else
        let sh2 := { sh1 with flow_status := some "complete" }
        let final_plan := sh2.final_travel_guide.getD ""
        let step :=
          if final_plan ≠ "" ∧ sh2.plan_emitted.getD false = false then
            (emitEvent em0 EventType.plan final_plan
               (some [("is_final", Val.vbool true)]) now,
             { sh2 with plan_emitted := some true })
          else (em0, sh2)
        ({ s with shared := step.2,
                  emitter := completeEmit step.1 "Your travel plan is ready!" now,
                  status := "complete" },
         none)

/-- FlowRunner.resume: stores pending_input, sets flow_status, appends the
user input to the conversation history, emits a Thinking event, and re-runs a
fresh flow on the same store; the tail mirrors run, except that the except
clause sets only the session status (not flow_status) before re-raising. -/
def FlowRunner_resume (s : SessionM) (user_input : String) (flowExec : FlowExec)
    (now : String) : SessionM × Option String :=
  let sh0 := { s.shared with
                 pending_input := some user_input,
                 flow_status := some "processing",
                 conversation_history :=
                   s.shared.conversation_history ++ ["User: " ++ user_input] }
  let em0 := emitEvent s.emitter EventType.thinking "Processing your response..." none now
  match flowExec sh0 with
  | (sh1, some e) =>
      ({ s with shared := sh1,
                emitter := errorEmit em0 ("Error: " ++ e) none now,
                status := "error" },
       some e)
  | (sh1, none) =>
      if sh1.flow_status = some "waiting_input" then
        ({ s with shared := sh1, emitter := em0, status := "waiting_input" }, none)
      else
        let sh2 := { sh1 with flow_status := some "complete" }
        let final_plan := sh2.final_travel_guide.getD ""
        let step :=
          if final_plan ≠ "" ∧ sh2.plan_emitted.getD false = false then
            (emitEvent em0 EventType.plan final_plan
               (some [("is_final", Val.vbool true)]) now,
             { sh2 with plan_emitted := some true })
          else (em0, sh2)
        ({ s with shared := step.2,
                  emitter := completeEmit step.1 "Your travel plan is ready!" now,
                  status := "complete" },
         none)

/-- The dispatch condition of run_flow_sync: the resume branch is taken only
when the session status is "waiting_input" and a truthy (non-empty) user
message is supplied; otherwise a fresh run is started. -/
def selectsResume (s : SessionM) (user_message : Option String) : Bool :=
  match user_message with
  | some msg => decide (s.status = "waiting_input") && decide (msg ≠ "")
  | none => false

/-! ### The clarification cycle of flow.py
DecideNeedInfo -clarify-> AskClarification -> GetUserClarification
-analyze-> AnalyzeRequest -> DecideNeedInfo, with the LLM's analysis of each
pass supplied by an oracle and user answers supplied by the console. -/

/-- Run the clarification cycle starting at DecideNeedInfo for at most fuel
visits of the guard: some store when the guard exits with "proceed" within
the fuel, none when the cycle is still looping after fuel guard visits. -/
def clarLoop (oracle : Nat → AnalysisResult) :
    Nat → Shared → Nat → List String → Option Shared
  | 0, _, _, _ => none
  | fuel + 1, shared, passIdx, console =>
      let d := DecideNeedInfo_run shared
      if d.2 = "proceed" then some d.1
      else
        let a := AskClarification_run d.1
        let g := GetUserClarification_run a.1 console
        let an := AnalyzeRequest_post g.1 (oracle passIdx)
        clarLoop oracle fuel an.1 (passIdx + 1) g.2.2

/-! ### Concrete inputs used by the claim theorems and witnesses -/

/-- A flow whose run lets the exception e escape after mutating the store
(models flow.run raising from inside pocketflow). -/
def raisingFlow (flowMut : Shared → Shared) (e : String) : FlowExec :=
  fun sh => (flowMut sh, some e)

/-- The shared store as FlowRunner.resume leaves it for the restarted flow,
starting from a fresh session store: pending_input and the conversation
history hold the user's answer. -/
def resumedStore : Shared :=
  { init_shared_store with
      pending_input := some "I want to visit Paris for 5 days",
      flow_status := some "processing",
      conversation_history := ["User: I want to visit Paris for 5 days"] }

/-- A store at the configured bound with no destination collected. -/
def c4Store : Shared :=
  { clarification_round := some 5, max_clarification_rounds := some 5,
    needs_clarification := some true, trip_info := [] }

/-- A store at the configured bound with a destination collected. -/
def c4WitnessStore : Shared :=
  { clarification_round := some 7, max_clarification_rounds := some 5,
    needs_clarification := some true,
    trip_info := [("destination", Val.vstr "Paris")] }

/-- An LLM analysis oracle that keeps requesting clarification and never
extracts a destination. -/
def stubbornOracle : Nat → AnalysisResult :=
  fun _ =>
    { extracted_info := [], needs_clarification := some true,
      questions := some ["What destination are you considering?"],
      reasoning := some "destination still unknown" }

/-- A store inside the clarification loop with a destination already known. -/
def c5WitnessStore : Shared :=
  { init_shared_store with trip_info := [("destination", Val.vstr "Paris")] }

/-- A parser on which the first parse and the repaired parse both raise a
ScannerError (witness collaborator for the parse-repair claim). -/
def parseW : String → Except YamlErr Val :=
  fun t =>
    if t = "bad yaml" then Except.error (YamlErr.scanner "tok")
    else if t = "still bad yaml" then Except.error (YamlErr.scanner "tok2")
    else Except.ok Val.vnull

/-- A repair LLM that answers every repair prompt with more broken YAML. -/
def llmW : String → String := fun _ => "still bad yaml"

/-- A concrete waiting session with one queued event (witness input). -/
def sessionW : SessionM :=
  { id := "s-1", created_at := "t0", updated_at := "t0",
    messages := [{ role := "user", content := "hi", timestamp := "t0" }],
    shared := init_shared_store, status := "processing",
    emitter := { queue := [{ type := EventType.progress, content := "p",
                             metadata := [], timestamp := "t0" }],
                 closed := false } }

/-- A registry holding sessionW under its id. -/
def managerW : SessionManagerM := { sessions := [("s-1", sessionW)] }

/-- The empty registry. -/
def emptyManager : SessionManagerM := { sessions := [] }

/-- A session registered under the id "abc" (witness input). -/
def sessAbc : SessionM :=
  { id := "abc", created_at := "t0", updated_at := "t0",
    shared := init_shared_store }

/-- A registry holding sessAbc under "abc". -/
def managerAbc : SessionManagerM := { sessions := [("abc", sessAbc)] }

/-! ## Helper lemmas on dictionaries -/

theorem lookupKV_dictInsert_self {α : Type} (d : List (String × α)) (k : String)
    (v : α) : lookupKV (dictInsert d k v) k = some v := by
  induction d with
  | nil => simp [dictInsert, lookupKV]
  | cons p rest ih =>
      obtain ⟨k1, v1⟩ := p
      by_cases h : k1 = k
      · subst h; simp [dictInsert, lookupKV]
      · simp [dictInsert, lookupKV, h, ih]

theorem lookupKV_dictInsert_ne {α : Type} (d : List (String × α)) (k k2 : String)
    (v : α) (h : k2 ≠ k) :
    lookupKV (dictInsert d k v) k2 = lookupKV d k2 := by
  induction d with
  | nil =>
      have h2 : ¬ k = k2 := fun hh => h hh.symm
      simp [dictInsert, lookupKV, h2]
  | cons p rest ih =>
      obtain ⟨k1, v1⟩ := p
      by_cases h1 : k1 = k
      · subst h1
        have h2 : ¬ k1 = k2 := fun hh => h hh.symm
        simp [dictInsert, lookupKV, h2]
      · by_cases h2 : k1 = k2
        · subst h2; simp [dictInsert, lookupKV, h1]
        · simp [dictInsert, lookupKV, h1, h2, ih]

theorem updateTripInfo_keeps (extracted : List (String × Val)) :
    ∀ (trip : List (String × Val)) (k : String),
      (lookupKV trip k).isSome = true →
      (lookupKV (updateTripInfo trip extracted) k).isSome = true := by
  induction extracted with
  | nil => intro trip k h; simpa [updateTripInfo] using h
  | cons p rest ih =>
      intro trip k h
      obtain ⟨pk, pv⟩ := p
      by_cases hg : pv ≠ Val.vnull ∧ pv ≠ Val.vlist [] ∧ pv ≠ Val.vstr ""
      · rw [updateTripInfo, if_pos hg]
        apply ih
        by_cases hk : k = pk
        · subst hk; simp [lookupKV_dictInsert_self]
        · rw [lookupKV_dictInsert_ne _ _ _ _ hk]; exact h
      · rw [updateTripInfo, if_neg hg]
        exact ih trip k h

theorem updateTripInfo_no_bad_write (extracted : List (String × Val)) :
    ∀ (trip : List (String × Val)) (k : String) (v : Val),
      lookupKV (updateTripInfo trip extracted) k = some v →
      lookupKV trip k = some v ∨
        (v ≠ Val.vnull ∧ v ≠ Val.vlist [] ∧ v ≠ Val.vstr "") := by
  induction extracted with
  | nil => intro trip k v h; exact Or.inl (by simpa [updateTripInfo] using h)
  | cons p rest ih =>
      intro trip k v h
      obtain ⟨pk, pv⟩ := p
      by_cases hg : pv ≠ Val.vnull ∧ pv ≠ Val.vlist [] ∧ pv ≠ Val.vstr ""
      · rw [updateTripInfo, if_pos hg] at h
        rcases ih _ _ _ h with h1 | h2
        · by_cases hk : k = pk
          · subst hk
            rw [lookupKV_dictInsert_self] at h1
            right; cases h1; exact hg
          · rw [lookupKV_dictInsert_ne _ _ _ _ hk] at h1; exact Or.inl h1
        · exact Or.inr h2
      · rw [updateTripInfo, if_neg hg] at h
        exact ih trip k v h

theorem updateTripInfo_truthy_key (extracted : List (String × Val)) (key : String) :
    ∀ (trip : List (String × Val)),
      truthy ((lookupKV trip key).getD Val.vnull) = true →
      (∀ v, (key, v) ∈ extracted →
        (v ≠ Val.vnull ∧ v ≠ Val.vlist [] ∧ v ≠ Val.vstr "") → truthy v = true) →
      truthy ((lookupKV (updateTripInfo trip extracted) key).getD Val.vnull) = true := by
  induction extracted with
  | nil => intro trip h _; simpa [updateTripInfo] using h
  | cons p rest ih =>
      intro trip h hsafe
      obtain ⟨pk, pv⟩ := p
      by_cases hg : pv ≠ Val.vnull ∧ pv ≠ Val.vlist [] ∧ pv ≠ Val.vstr ""
      · rw [updateTripInfo, if_pos hg]
        apply ih
        · by_cases hk : key = pk
          · subst hk
            rw [lookupKV_dictInsert_self]
            exact hsafe pv (List.mem_cons_self _ _) hg
          · rw [lookupKV_dictInsert_ne _ _ _ _ hk]; exact h
        · intro v hv hgv
          exact hsafe v (List.mem_cons_of_mem _ hv) hgv
      · rw [updateTripInfo, if_neg hg]
        exact ih trip h (fun v hv hgv => hsafe v (List.mem_cons_of_mem _ hv) hgv)

/-! ## Claim theorems -/

/-- C10: AnalyzeRequest.post never erases trip_info: every key present before
the post is still present afterwards, and any key whose value differs from
before holds a value that is not None, not the empty list and not the empty
string, so collected trip attributes survive every clarification pass. -/
theorem analyzeRequest_trip_info_never_erased (shared : Shared)
    (exec_res : AnalysisResult) (k : String) :
    ((lookupKV shared.trip_info k).isSome = true →
      (lookupKV (AnalyzeRequest_post shared exec_res).1.trip_info k).isSome = true)
    ∧ (∀ v, lookupKV (AnalyzeRequest_post shared exec_res).1.trip_info k = some v →
        lookupKV shared.trip_info k = some v ∨
          (v ≠ Val.vnull ∧ v ≠ Val.vlist [] ∧ v ≠ Val.vstr "")) := by
  constructor
  · intro h
    simpa [AnalyzeRequest_post] using
      updateTripInfo_keeps exec_res.extracted_info shared.trip_info k h
  · intro v h
    exact updateTripInfo_no_bad_write exec_res.extracted_info shared.trip_info k v
      (by simpa [AnalyzeRequest_post] using h)

/-- Witness for C10: the destination key survives a post whose extraction
offers an empty string for it, on a concrete store. -/
theorem analyzeRequest_trip_info_never_erased_witness :
    (lookupKV (AnalyzeRequest_post
        { trip_info := [("destination", Val.vstr "Paris")] }
        { extracted_info := [("destination", Val.vstr ""), ("budget", Val.vstr "$100")] }).1.trip_info
      "destination").isSome = true :=
  (analyzeRequest_trip_info_never_erased
      { trip_info := [("destination", Val.vstr "Paris")] }
      { extracted_info := [("destination", Val.vstr ""), ("budget", Val.vstr "$100")] }
      "destination").1 (by decide)

/-- C4 counterexample: a store at the bound (clarification_round = 5,
max_clarification_rounds = 5) whose trip_info has no destination makes
DecideNeedInfo return "clarify", not "proceed" — the destination check
precedes the round bound, so the claim as stated is false. -/
theorem decideNeedInfo_bound_counterexample :
    (DecideNeedInfo_run c4Store).2 = "clarify" ∧
      ¬ (DecideNeedInfo_run c4Store).2 = "proceed" := by decide

/-- C4 amended: for every store whose trip_info holds a truthy destination
and whose clarification_round is at least max_clarification_rounds,
DecideNeedInfo returns "proceed" regardless of needs_clarification, and
leaves the store unchanged, so repeated invocations keep returning
"proceed". -/
theorem decideNeedInfo_bound (shared : Shared)
    (hdest : truthy ((lookupKV shared.trip_info "destination").getD Val.vnull) = true)
    (hround : shared.max_clarification_rounds.getD 5 ≤ shared.clarification_round.getD 0) :
    DecideNeedInfo_run shared = (shared, "proceed") := by
  have hge : (DecideNeedInfo_prep shared).clarification_round ≥
      (DecideNeedInfo_prep shared).max_rounds := hround
  simp [DecideNeedInfo_run, DecideNeedInfo_post, DecideNeedInfo_exec,
    DecideNeedInfo_prep, hdest] at hge ⊢
  omega

/-- Witness for C4: the amended bound at a concrete store past the bound with
needs_clarification still true. -/
theorem decideNeedInfo_bound_witness :
    DecideNeedInfo_run c4WitnessStore = (c4WitnessStore, "proceed") :=
  decideNeedInfo_bound c4WitnessStore (by decide) (by decide)

/-- C8: search_web never propagates a backend failure — any HTTPError or
other exception during the request or response handling yields the empty
list — and on success it returns the {title, url, snippet} records of the
organic results in backend order, with "" defaults for missing fields. -/
theorem search_web_degrades_gracefully :
    (∀ e : SearchFailure, search_web (Except.error e) = []) ∧
    (∀ resp : SerperResponse,
      search_web (Except.ok resp) =
        (resp.organic.getD []).map (fun r =>
          { title := r.title.getD "", url := r.link.getD "",
            snippet := r.snippet.getD "" })) := by
  constructor
  · intro e; cases e <;> rfl
  · intro resp; rfl

/-- C1 (code bug): on the very store that FlowRunner.resume prepares
(pending_input and conversation history filled in), a restarted flow's
GetUserRequest still consumes a console line, stores that console line — not
the pending input — as the user request, and appends another
"Initial request" history entry: the node never short-circuits, so the
resumed run re-asks instead of resuming idempotently. -/
theorem getUserRequest_ignores_pending_input :
    (GetUserRequest_run resumedStore ["typed at the console"]).1.user_request
        = some "typed at the console"
    ∧ (GetUserRequest_run resumedStore ["typed at the console"]).2.2 = []
    ∧ (GetUserRequest_run resumedStore ["typed at the console"]).1.conversation_history
        = ["User: I want to visit Paris for 5 days",
           "Initial request: typed at the console"]
    ∧ resumedStore.pending_input = some "I want to visit Paris for 5 days" := by
  decide

/-! ## Helper lemmas on the emitter and the clarification pass -/

theorem emitMany_open (evs : List (EventType × String × String)) :
    ∀ s : EmitterState, s.closed = false →
      emitMany s evs =
        { queue := s.queue ++ evs.map (fun e =>
            { type := e.1, content := e.2.1, metadata := [], timestamp := e.2.2 }),
          closed := false } := by
  induction evs with
  | nil =>
      intro s h
      obtain ⟨q, c⟩ := s
      simp at h
      subst h
      simp [emitMany]
  | cons e rest ih =>
      intro s h
      have hstep : emitEvent s e.1 e.2.1 none e.2.2 =
          { queue := s.queue ++
              [{ type := e.1, content := e.2.1, metadata := [], timestamp := e.2.2 }],
            closed := false } := by
        obtain ⟨q, c⟩ := s
        simp at h
        subst h
        simp [emitEvent]
      show emitMany (emitEvent s e.1 e.2.1 none e.2.2) rest = _
      rw [hstep, ih _ rfl]
      simp

/-- The store produced by one clarify pass (AskClarification, then
GetUserClarification, then AnalyzeRequest): trip_info is merged through
updateTripInfo, the round counter grows by one, the maximum is untouched. -/
theorem clarPass_fields (shared : Shared) (ar : AnalysisResult) (console : List String) :
    ((AnalyzeRequest_post (GetUserClarification_run (AskClarification_run shared).1 console).1 ar).1.trip_info
        = updateTripInfo shared.trip_info ar.extracted_info)
    ∧ ((AnalyzeRequest_post (GetUserClarification_run (AskClarification_run shared).1 console).1 ar).1.clarification_round
        = some (shared.clarification_round.getD 0 + 1))
    ∧ ((AnalyzeRequest_post (GetUserClarification_run (AskClarification_run shared).1 console).1 ar).1.max_clarification_rounds
        = shared.max_clarification_rounds) := by
  refine ⟨?_, ?_, ?_⟩ <;>
    simp [AnalyzeRequest_post, GetUserClarification_run, GetUserClarification_post,
      AskClarification_run, AskClarification_post]

/-! ## Claim theorems (event stream and clarification loop) -/

/-- C2: emitting any sequence of events on a fresh emitter and then calling
complete() makes a single get_events read deliver exactly the emitted events,
once each, in emission order, followed by the Complete event, after which
the read terminates; a second read of the drained, closed emitter yields the
empty sequence. -/
theorem event_stream_contract (evs : List (EventType × String × String)) (c now : String) :
    get_events (completeEmit (emitMany emitterInit evs) c now) =
      some (evs.map (fun e =>
              { type := e.1, content := e.2.1, metadata := [], timestamp := e.2.2 })
            ++ [{ type := EventType.complete, content := c, metadata := [], timestamp := now }],
            { queue := [], closed := true })
    ∧ get_events ({ queue := [], closed := true } : EmitterState) =
        some ([], { queue := [], closed := true }) := by
  constructor
  · rw [emitMany_open evs emitterInit rfl]
    simp [completeEmit, emitEvent, get_events, emitterInit]
  · rfl

/-- C3 counterexample: after the error(...) convenience method on a fresh
emitter, the emitter is not closed and a subsequent emit changes the queue —
the claim that a terminal Error closes the emitter and drops later emits is
false on the code. -/
theorem error_close_counterexample :
    ¬ (emitEvent (errorEmit emitterInit "boom" none "t1") EventType.thinking "x" none "t2").queue
        = (errorEmit emitterInit "boom" none "t1").queue
    ∧ (errorEmit emitterInit "boom" none "t1").closed = false := by decide

/-- C3 amended: error(...) emits an Error event but does not close the
emitter — the closed flag is unchanged, a subsequent emit on a still-open
emitter is enqueued rather than dropped, and the consumer's sequence does not
terminate from the error alone; only complete() closes the emitter, after
which every emit call leaves it unchanged. -/
theorem error_does_not_close (s : EmitterState) (content t2 c2 : String)
    (et : Option String) (now : String) (ty : EventType)
    (md : Option (List (String × Val))) :
    ((errorEmit s content et now).closed = s.closed)
    ∧ (s.closed = false →
        (emitEvent (errorEmit s content et now) ty c2 md t2).queue
            = (errorEmit s content et now).queue ++
                [{ type := ty, content := c2, metadata := md.getD [], timestamp := t2 }]
        ∧ get_events (errorEmit s content et now) = none)
    ∧ ((completeEmit s c2 t2).closed = true)
    ∧ (∀ s2 : EmitterState, s2.closed = true → emitEvent s2 ty c2 md t2 = s2) := by
  refine ⟨?_, ?_, ?_, ?_⟩
  · by_cases h : s.closed <;> simp [errorEmit, emitEvent, h]
  · intro h
    constructor
    · simp [errorEmit, emitEvent, h]
    · simp [errorEmit, emitEvent, get_events, h]
  · simp [completeEmit]
  · intro s2 h; simp [emitEvent, h]

/-- Witness for C3's amended theorem on a fresh emitter. -/
theorem error_does_not_close_witness :
    (emitEvent (errorEmit emitterInit "boom" none "t1") EventType.thinking "x" none "t2").queue
      = (errorEmit emitterInit "boom" none "t1").queue ++
          [{ type := EventType.thinking, content := "x", metadata := [], timestamp := "t2" }] :=
  ((error_does_not_close emitterInit "boom" "t2" "x" none "t1" EventType.thinking none).2.1
    rfl).1

/-- C5 counterexample: starting from the session's initial store (round 0,
max 5, empty trip_info) with an LLM that keeps asking and never yields a
destination, the cycle is still running after six guard visits — it does not
terminate within the configured five rounds, because the missing-destination
check precedes the round bound. -/
theorem clarification_loop_counterexample :
    (clarLoop stubbornOracle 6 init_shared_store 0 []).isSome = false := by decide

/-- C5 amended: provided trip_info holds a truthy destination (and
re-analysis never overwrites it with a falsy value), the clarification cycle
terminates within the configured max_clarification_rounds guard passes
regardless of the LLM's needs_clarification judgment, because
AskClarification increments clarification_round on every pass and the guard
exits once the counter reaches the maximum; without a destination the guard
keeps returning "clarify" past every bound. -/
theorem clarification_loop_terminates (oracle : Nat → AnalysisResult)
    (hsafe : ∀ i v, ("destination", v) ∈ (oracle i).extracted_info →
        (v ≠ Val.vnull ∧ v ≠ Val.vlist [] ∧ v ≠ Val.vstr "") → truthy v = true) :
    ∀ (fuel : Nat) (shared : Shared) (p : Nat) (console : List String),
      truthy ((lookupKV shared.trip_info "destination").getD Val.vnull) = true →
      shared.max_clarification_rounds.getD 5 - shared.clarification_round.getD 0 < fuel →
      (clarLoop oracle fuel shared p console).isSome = true := by
  intro fuel
  induction fuel with
  | zero => intro shared p console _ hfuel; omega
  | succ f ih =>
      intro shared p console hdest hfuel
      by_cases hact : DecideNeedInfo_exec (DecideNeedInfo_prep shared) = "proceed"
      · simp [clarLoop, DecideNeedInfo_run, DecideNeedInfo_post, hact]
      · have hlt : shared.clarification_round.getD 0 <
            shared.max_clarification_rounds.getD 5 := by
          by_contra hge
          apply hact
          simp [DecideNeedInfo_exec, DecideNeedInfo_prep, hdest]
          omega
        have hrec : clarLoop oracle (f + 1) shared p console =
            clarLoop oracle f
              (AnalyzeRequest_post
                (GetUserClarification_run (AskClarification_run shared).1 console).1
                (oracle p)).1
              (p + 1) console.tail := by
          simp only [clarLoop, DecideNeedInfo_run, DecideNeedInfo_post, if_neg hact]
          rfl
        rw [hrec]
        obtain ⟨htrip, hround, hmax⟩ := clarPass_fields shared (oracle p) console
        apply ih
        · rw [htrip]
          exact updateTripInfo_truthy_key (oracle p).extracted_info "destination"
            shared.trip_info hdest (fun v hv hg => hsafe p v hv hg)
        · rw [hround, hmax]
          simp
          omega

/-- Witness for C5's amended theorem: with a destination already collected
and the never-satisfied LLM, the loop exits within six guard visits. -/
theorem clarification_loop_terminates_witness :
    (clarLoop stubbornOracle 6 c5WitnessStore 0 []).isSome = true :=
  clarification_loop_terminates stubbornOracle
    (by intro i v hv _; simp [stubbornOracle] at hv)
    6 c5WitnessStore 0 [] (by decide) (by decide)

/-! ## Claim theorems (parse repair, aborted runs, registry) -/

/-- C6: when parsing the daily-itinerary YAML raises a ScannerError, exactly
one repair completion is issued, with the parse-error message embedded in the
prompt, and the outcome is whatever parsing the repaired text yields — a
second failure propagates with no further repair (the repair count stays 1);
a parse failure of any other kind propagates immediately with no repair; a
successful parse issues no repair. -/
theorem one_shot_parse_repair (parse : String → Except YamlErr Val)
    (llm : String → String) (yaml_str : String) :
    (∀ m, parse yaml_str = Except.error (YamlErr.scanner m) →
        planItineraryParse parse llm yaml_str =
          (parse (llm (repairPrompt m yaml_str)), 1))
    ∧ (∀ m, parse yaml_str = Except.error (YamlErr.other m) →
        planItineraryParse parse llm yaml_str =
          (Except.error (YamlErr.other m), 0))
    ∧ (∀ v, parse yaml_str = Except.ok v →
        planItineraryParse parse llm yaml_str = (Except.ok v, 0)) := by
  refine ⟨?_, ?_, ?_⟩ <;> intro m h <;> simp [planItineraryParse, h]

/-- Witness for C6: on a parser whose repair attempt also raises a
ScannerError, the failure propagates after exactly one repair completion. -/
theorem one_shot_parse_repair_witness :
    planItineraryParse parseW llmW "bad yaml" =
      (Except.error (YamlErr.scanner "tok2"), 1) := by
  have h := (one_shot_parse_repair parseW llmW "bad yaml").1 "tok" rfl
  rw [h]
  rfl

/-- C7: when an exception escapes the flow during FlowRunner.run or
FlowRunner.resume, the exception is re-raised, an Error stream event
(prefixed "Error: ") is emitted on the session's emitter after the run's
Thinking event, the session status becomes "error" (and run also marks the
store's flow_status "error"), the session together with its shared store is
still returned by a registry lookup afterwards (nothing deletes it), and the
run_flow_sync dispatch can never choose the resume branch for the errored
session, so no automatic resume is attempted. -/
theorem aborted_run_surfaces (s : SessionM) (flowMut : Shared → Shared)
    (e now msg : String) (m : SessionManagerM)
    (hopen : s.emitter.closed = false) :
    ((FlowRunner_run s (raisingFlow flowMut e) now).2 = some e)
    ∧ ((FlowRunner_run s (raisingFlow flowMut e) now).1.status = "error")
    ∧ ((FlowRunner_run s (raisingFlow flowMut e) now).1.shared.flow_status = some "error")
    ∧ ((FlowRunner_run s (raisingFlow flowMut e) now).1.emitter.queue =
        s.emitter.queue ++
          [{ type := EventType.thinking, content := "Starting to plan your trip...",
             metadata := [], timestamp := now },
           { type := EventType.error, content := "Error: " ++ e,
             metadata := [("error_type", Val.vnull)], timestamp := now }])
    ∧ (get_session
        { sessions := dictInsert m.sessions s.id (FlowRunner_run s (raisingFlow flowMut e) now).1 }
        s.id = some (FlowRunner_run s (raisingFlow flowMut e) now).1)
    ∧ (selectsResume (FlowRunner_run s (raisingFlow flowMut e) now).1 (some msg) = false)
    ∧ ((FlowRunner_resume s msg (raisingFlow flowMut e) now).2 = some e)
    ∧ ((FlowRunner_resume s msg (raisingFlow flowMut e) now).1.status = "error")
    ∧ ((FlowRunner_resume s msg (raisingFlow flowMut e) now).1.emitter.queue =
        s.emitter.queue ++
          [{ type := EventType.thinking, content := "Processing your response...",
             metadata := [], timestamp := now },
           { type := EventType.error, content := "Error: " ++ e,
             metadata := [("error_type", Val.vnull)], timestamp := now }])
    ∧ (selectsResume (FlowRunner_resume s msg (raisingFlow flowMut e) now).1 (some msg) = false) := by
  refine ⟨?_, ?_, ?_, ?_, ?_, ?_, ?_, ?_, ?_, ?_⟩ <;>
    simp [FlowRunner_run, FlowRunner_resume, raisingFlow, errorEmit, emitEvent,
      selectsResume, get_session, lookupKV_dictInsert_self, hopen]

/-- Witness for C7: a concrete session whose flow raises "boom". -/
theorem aborted_run_surfaces_witness :
    (FlowRunner_run sessionW (raisingFlow id "boom") "t1").1.status = "error"
    ∧ (FlowRunner_run sessionW (raisingFlow id "boom") "t1").2 = some "boom" :=
  ⟨(aborted_run_surfaces sessionW id "boom" "t1" "again" managerW (by decide)).2.1,
   (aborted_run_surfaces sessionW id "boom" "t1" "again" managerW (by decide)).1⟩

/-- C9 counterexample: on the empty registry, getOrCreate with the supplied
id "abc" returns a session whose id is the freshly generated uuid, not the
supplied id — the claim that the returned session's id equals the supplied
id is false on the code. -/
theorem get_or_create_id_counterexample :
    ¬ (get_or_create_session emptyManager (some "abc") "u1" "t0").1.id = "abc" := by
  decide

/-- C9 amended: for a non-empty id already present, getOrCreate returns the
existing session unchanged and leaves the registry untouched; for an id not
present it ignores the supplied id and creates a session under a freshly
generated id with the initialized shared store and idle status, so the
supplied id remains absent from the registry. -/
theorem get_or_create_session_spec (m : SessionManagerM) (sid fresh now : String)
    (hsid : sid ≠ "") :
    (∀ s, lookupKV m.sessions sid = some s →
        get_or_create_session m (some sid) fresh now = (s, m))
    ∧ (lookupKV m.sessions sid = none →
        get_or_create_session m (some sid) fresh now = create_session m fresh now
        ∧ (create_session m fresh now).1.id = fresh
        ∧ (create_session m fresh now).1.shared = init_shared_store
        ∧ (create_session m fresh now).1.status = "idle"
        ∧ get_session (create_session m fresh now).2 fresh =
            some (create_session m fresh now).1
        ∧ (¬ sid = fresh →
            get_session (create_session m fresh now).2 sid = none)) := by
  constructor
  · intro s h; simp [get_or_create_session, hsid, h]
  · intro h
    refine ⟨by simp [get_or_create_session, hsid, h], rfl, rfl, rfl, ?_, ?_⟩
    · simp [get_session, create_session, lookupKV_dictInsert_self]
    · intro hne
      simp [get_session, create_session, lookupKV_dictInsert_ne _ _ _ _ hne, h]

/-- Witness for C9's amended theorem: an existing id is returned unchanged;
an unknown id falls through to create_session. -/
theorem get_or_create_session_spec_witness :
    get_or_create_session managerAbc (some "abc") "u1" "t0" = (sessAbc, managerAbc)
    ∧ get_or_create_session emptyManager (some "zzz") "u1" "t0" =
        create_session emptyManager "u1" "t0" :=
  ⟨(get_or_create_session_spec managerAbc "abc" "u1" "t0" (by decide)).1 sessAbc
      (by decide),
   ((get_or_create_session_spec emptyManager "zzz" "u1" "t0" (by decide)).2
      (by decide)).1⟩

end TravelGuide
